import Mathlib

/-
Shallow embedding of the pizza-shop event pipeline (Go, RabbitMQ + WebSocket):
the message processor state machine, the event publisher, the event consumer,
and the broker connection manager, together with proofs of the behavioural
properties stated in the specification.

External library calls (JSON unmarshalling, the AMQP client, the WebSocket
write) are modelled at their boundary: each function is parameterised by an
environment that fixes the outcomes of those calls, and returns a trace of the
externally visible effects it performs in order.
-/

set_option autoImplicit false

namespace PizzaShop

/-- Decoded JSON value, the model of Go's `interface{}` after `json.Unmarshal`. -/
inductive JVal where
  | str (s : String)
  | num (n : Int)
  | jbool (b : Bool)
  | jnull
  | arr (xs : List JVal)
  | obj (fields : List (String × JVal))

/-- Decoded event: the Go `map[string]interface{}`, as an association list. -/
abbrev Event := List (String × JVal)

/-- Map lookup, `event[k]` with `ok` reporting presence. -/
def lookupField : Event → String → Option JVal
  | [], _ => none
  | (k, v) :: rest, key => if k = key then some v else lookupField rest key

/-- Map update, `event[k] = v`: replaces the binding if present, else appends. -/
def setField : Event → String → JVal → Event
  | [], key, v => [(key, v)]
  | (k, w) :: rest, key, v =>
      if k = key then (k, v) :: rest else (k, w) :: setField rest key v

/-- Wire payload of a delivery as seen by `json.Unmarshal` into a map:
either it is not a valid encoding of a JSON object, or it encodes `e`. -/
inductive Body where
  | invalid
  | objectOf (e : Event)

/-- Model of `json.Unmarshal(msg.Body, &event)` at its boundary. -/
def decodeBody : Body → Option Event
  | .invalid => none
  | .objectOf e => some e

/-- One AMQP delivery: the message body plus its acknowledgment handle
(the handle is implicit; ack decisions appear in the effect trace). -/
structure Delivery where
  body : Body

/-- Go `error` values that the services produce or pass along. -/
inductive GoErr where
  | marshalErr (cause : String)
  | amqpErr (s : String)
  | strErr (s : String)

/-- Result of `err.Error()` on the errors above; `marshalErr` carries the
wrapping performed by `fmt.Errorf("failed to marshal body: %w", err)`. -/
def GoErr.message : GoErr → String
  | .marshalErr cause => "failed to marshal body: " ++ cause
  | .amqpErr s => s
  | .strErr s => s

/-- Modelled from the spec: the `constants` package is not among the source
files; the spec fixes a closed status enumeration ORDERED, PREPARING,
PREPARED, DELIVERED, CANCELLED, a single work queue, and a completion
message. The claims depend only on these being fixed, pairwise distinct
strings, not on their exact spelling. -/
def ORDER_ORDERED : String := "ORDERED"

/-- Modelled from the spec: status constant for the cooking stage. -/
def ORDER_PREPARING : String := "PREPARING"

/-- Modelled from the spec: status constant for the ready stage. -/
def ORDER_PREPARED : String := "PREPARED"

/-- Modelled from the spec: terminal success status. -/
def ORDER_DELIVERED : String := "DELIVERED"

/-- Modelled from the spec: terminal failure indicator used in error
notifications. -/
def ORDER_CANCELLED : String := "CANCELLED"

/-- Modelled from the spec: the single named work queue. -/
def KITCHEN_ORDER_QUEUE : String := "kitchen_order_queue"

/-- Modelled from the spec: completion-notification text. -/
def ORDER_PREPARED_SUCCESSFULLY : String := "Order prepared successfully"

/-- Nanoseconds in one second: Go's `int(time.Second)`. -/
def second : Int := 1000000000

/-- Embedding of `utils.GenerateRandomDuration(max, min int) time.Duration`.
The Go source declares the parameters in the order `(max, min)`, panics when
`min > max`, and otherwise returns
`time.Duration(rand.Intn(max-min+1) * int(time.Second)) * time.Second`.
`randIntn` stands for `rand.Intn` after reseeding; a panic is `.error`. -/
def GenerateRandomDuration (max min : Int) (randIntn : Int → Int) :
    Except String Int :=
  if min > max then
    .error "Invalid range of time"
  else
    let radomSec := randIntn (max - min + 1) * second
    .ok (radomSec * second)

/-! ## Message processor (`message_processor_service.go`) -/

/-- Externally visible effects of processing one delivery, in program order. -/
inductive MsgEffect where
  | publishTo (q : String) (e : Event)
  | wsSend (data : JVal)
  | sleep (d : Int)
  | ack
  | nackRequeue

/-- Environment of a `MessageProcessor` run: the outcome of the injected
publisher's `PublishEvent` per call, the WebSocket connection registry
`mp.connection` (`none` models a nil pointer; entries are live connections),
the outcome of `SendMessage` on the found connection, and the reseeded
`rand.Intn`. -/
structure ProcEnv where
  publish : String → Event → Option GoErr
  registry : Option (List (String × Nat))
  sendResult : Option GoErr
  randIntn : Int → Int

/-- Embedding of `broadcastToWebSocket`: marshals `data`, and only when the
connection map pointer is non-nil and holds a connection under the key
`"pizza"` does it write to that connection; otherwise it returns nil. -/
def broadcastToWebSocket (env : ProcEnv) (data : JVal) :
    Option GoErr × List MsgEffect :=
  match env.registry with
  | none => (none, [])
  | some conns =>
      match conns.lookup "pizza" with
      | none => (none, [])
      | some _ => (env.sendResult, [.wsSend data])

/-- Embedding of `sendErrorToUser`: broadcasts a cancellation notice carrying
`err.Error()`; the broadcast result is discarded. -/
def sendErrorToUser (env : ProcEnv) (err : GoErr) : List MsgEffect :=
  (broadcastToWebSocket env
    (.obj [("message", .str ORDER_CANCELLED), ("error", .str err.message)])).2

/-- Outcome of one status handler: a normal return carrying the error value
and the (in-place mutated) event map, or a propagating panic. -/
inductive HOut where
  | ret (err : Option GoErr) (event : Event)
  | panicked (msg : String)

/-- Embedding of `handleOrderOrdered`: sets `order_status` to PREPARING,
publishes the mutated event to the kitchen queue, and on publish failure
notifies the user before returning the error. -/
def handleOrderOrdered (env : ProcEnv) (event : Event) :
    HOut × List MsgEffect :=
  let event' := setField event "order_status" (.str ORDER_PREPARING)
  match env.publish KITCHEN_ORDER_QUEUE event' with
  | some e =>
      (.ret (some e) event',
        .publishTo KITCHEN_ORDER_QUEUE event' :: sendErrorToUser env e)
  | none => (.ret none event', [.publishTo KITCHEN_ORDER_QUEUE event'])

/-- Embedding of `handleOrderPreparing`: sleeps for
`GenerateRandomDuration(1, 6)` (a panic there propagates), then sets
`order_status` to PREPARED and publishes the mutated event. -/
def handleOrderPreparing (env : ProcEnv) (event : Event) :
    HOut × List MsgEffect :=
  match GenerateRandomDuration 1 6 env.randIntn with
  | .error m => (.panicked m, [])
  | .ok d =>
      let event' := setField event "order_status" (.str ORDER_PREPARED)
      match env.publish KITCHEN_ORDER_QUEUE event' with
      | some e =>
          (.ret (some e) event',
            .sleep d :: .publishTo KITCHEN_ORDER_QUEUE event' ::
              sendErrorToUser env e)
      | none =>
          (.ret none event', [.sleep d, .publishTo KITCHEN_ORDER_QUEUE event'])

/-- Embedding of `handleOrderPrepared`: sets `order_status` to DELIVERED,
wraps the mutated event in a completion notification, and broadcasts it. -/
def handleOrderPrepared (env : ProcEnv) (event : Event) :
    HOut × List MsgEffect :=
  let event' := setField event "order_status" (.str ORDER_DELIVERED)
  let message : JVal :=
    .obj [("message", .str ORDER_PREPARED_SUCCESSFULLY), ("order", .obj event')]
  let r := broadcastToWebSocket env message
  (.ret r.1 event', r.2)

/-- Does the Go `switch val` match this string constant? `val` has type
`interface{}`; the case matches exactly when `val` is that string. -/
def isStr (v : JVal) (s : String) : Bool :=
  match v with
  | .str t => t = s
  | _ => false

/-- Result of `ProcessMessage`: a normal return of its error value, or a
propagating panic (which dies with the worker goroutine). -/
inductive PRes where
  | ret (err : Option GoErr)
  | panicked (msg : String)

/-- Embedding of `ProcessMessage`: unmarshal failure nacks with requeue and
returns the error; otherwise, when `order_status` is present, dispatch on it
(unknown statuses are logged and skipped), nack with requeue when the handler
failed, and in every remaining case positively ack. -/
def ProcessMessage (env : ProcEnv) (msg : Delivery) : PRes × List MsgEffect :=
  match decodeBody msg.body with
  | none => (.ret (some (.strErr "json unmarshal error")), [.nackRequeue])
  | some event =>
      match lookupField event "order_status" with
      | some val =>
          let h : HOut × List MsgEffect :=
            if isStr val ORDER_ORDERED then handleOrderOrdered env event
            else if isStr val ORDER_PREPARING then handleOrderPreparing env event
            else if isStr val ORDER_PREPARED then handleOrderPrepared env event
            else (.ret none event, [])
          match h with
          | (.panicked m, effs) => (.panicked m, effs)
          | (.ret (some e) _, effs) => (.ret (some e), effs ++ [.nackRequeue])
          | (.ret none _, effs) => (.ret none, effs ++ [.ack])
      | none => (.ret none, [.ack])

/-! ## Message publisher (`message_publisher_service.go`) -/

/-- Outcome of `json.Marshal(body)`: the wire bytes, or a marshalling error. -/
inductive MarshalResult where
  | ok (data : String)
  | err (cause : String)

/-- The channel value returned by `conf.GetChannel()`: nil, or a channel
whose `IsClosed()` is as recorded. -/
inductive ChannelRef where
  | nil
  | ch (closed : Bool)

/-- Environment of one `PublishEvent` call: the marshal outcome for its body,
the configured default queue name, the channel the connection manager
supplies, and the broker's response to `PublishWithContext`. -/
structure PublishEnv where
  marshal : MarshalResult
  defaultQueue : String
  channel : ChannelRef
  publishErr : Option String

/-- Externally visible effects of one `PublishEvent` call, in program order. -/
inductive PubEffect where
  | getChannel
  | publishWire (routingKey : String) (data : String) (persistent : Bool)
  | closeChannel

/-- Result of `PublishEvent`: a normal return of its error value, or a panic. -/
inductive PubRes where
  | ret (err : Option GoErr)
  | panicked (msg : String)

/-- Embedding of `PublishEvent`: marshal the body (failure returns a wrapped
error before anything else happens); default the queue name when empty; fetch
a channel and panic when it is nil or closed; publish persistently with the
queue name as routing key, returning a broker error as is; close the channel
only after a successful publish. -/
def PublishEvent (env : PublishEnv) (queueName : String) :
    PubRes × List PubEffect :=
  match env.marshal with
  | .err cause => (.ret (some (.marshalErr cause)), [])
  | .ok data =>
      let q := if queueName = "" then env.defaultQueue else queueName
      match env.channel with
      | .nil => (.panicked "RabbitMQ channel is unavailable", [.getChannel])
      | .ch true => (.panicked "RabbitMQ channel is unavailable", [.getChannel])
      | .ch false =>
          match env.publishErr with
          | some e =>
              (.ret (some (.amqpErr e)),
                [.getChannel, .publishWire q data true])
          | none =>
              (.ret none,
                [.getChannel, .publishWire q data true, .closeChannel])

/-! ## Message consumer (`message_consumer_service.go`) -/

/-- Environment of one `ConsumeEventAndProcess` call: the channel supplied by
the connection manager, the broker's response to `Consume`, and the finite
stream of deliveries received before the delivery channel closes. -/
structure ConsumeEnv where
  channel : Option Unit
  consumeErr : Option String
  deliveries : List Delivery

/-- Externally visible effects of the consumer, in program order. -/
inductive ConsEffect where
  | getChannel
  | queueDeclare (q : String) (durable autoDelete exclusive noWait : Bool)
  | consume (q : String) (autoAck : Bool)
  | spawnWorker (d : Delivery)

/-- Result of `ConsumeEventAndProcess`: a normal return of its error value,
or blocked forever in `select {}`. -/
inductive ConsRes where
  | ret (err : Option GoErr)
  | blocked

/-- Embedding of `MessageConsumerService.DeclareQueue`: fetch a channel (nil
fails with a retry hint), then declare the queue durable, not auto-deleted,
not exclusive, without no-wait. `declareErr` is the broker's response. -/
def ConsumerDeclareQueue (channel : Option Unit) (declareErr : Option String)
    (queueName : String) : Option GoErr × List ConsEffect :=
  match channel with
  | none => (some (.strErr "message channel is nil, please retry"), [.getChannel])
  | some _ =>
      (declareErr.map .amqpErr,
        [.getChannel, .queueDeclare queueName true false false false])

/-- Embedding of `ConsumeEventAndProcess`: fetch a channel (nil fails with a
retry hint), subscribe with manual acknowledgment (a subscribe error is
wrapped and returned), then dispatch one fresh worker per delivery until the
delivery stream closes, and block forever in `select {}`. -/
def ConsumeEventAndProcess (env : ConsumeEnv) (queueName : String) :
    ConsRes × List ConsEffect :=
  match env.channel with
  | none => (.ret (some (.strErr "message channel is nil, please retry")),
      [.getChannel])
  | some _ =>
      match env.consumeErr with
      | some e => (.ret (some (.strErr ("failed to consume message: " ++ e))),
          [.getChannel, .consume queueName false])
      | none =>
          (.blocked,
            .getChannel :: .consume queueName false ::
              env.deliveries.map .spawnWorker)

/-! ## Broker connection manager (`config/rabbit_mq_config.go`) -/

/-- Outcome of one `r.conn.Channel()` call: a channel (numbered, so distinct
attempts are distinguishable) or an error. -/
inductive AttemptResult where
  | ok (c : Nat)
  | fail (e : String)

/-- Outcome of `r.Connect()`: a fresh connection, or a panic on dial failure. -/
inductive ConnectResult where
  | ok
  | panicked (msg : String)

/-- Environment of one `GetChannel` call: whether `r.conn` is non-nil and not
closed, the outcome of `Connect()` should a reconnect be needed, and the
outcome of the n-th `Channel()` call on the (re)established connection. -/
structure ChanEnv where
  connLive : Bool
  connect : ConnectResult
  attempt : Nat → AttemptResult

/-- Open a channel with the single bounded retry of `GetChannel`: on a first
failure try exactly once more; a second failure returns nil. Also reports how
many `Channel()` calls were made. -/
def getChannelAttempts (attempt : Nat → AttemptResult) : Option Nat × Nat :=
  match attempt 0 with
  | .ok c => (some c, 1)
  | .fail _ =>
      match attempt 1 with
      | .ok c => (some c, 2)
      | .fail _ => (none, 2)

/-- Embedding of `RabbitMQConection.GetChannel`: reconnect first when the
connection is nil or closed (`Connect` panics on dial failure, propagated as
`.error`), then open a channel with at most one retry. -/
def GetChannel (env : ChanEnv) : Except String (Option Nat × Nat) :=
  if env.connLive then
    .ok (getChannelAttempts env.attempt)
  else
    match env.connect with
    | .panicked m => .error m
    | .ok => .ok (getChannelAttempts env.attempt)

/-! ## Helper lemmas and concrete environments -/

/-- Setting a key leaves every other key's value unchanged. -/
theorem lookup_set_ne (e : Event) (key k : String) (v : JVal) (h : k ≠ key) :
    lookupField (setField e key v) k = lookupField e k := by
  induction e with
  | nil => simp [setField, lookupField, h, Ne.symm h]
  | cons hd tl ih =>
      obtain ⟨k', w⟩ := hd
      by_cases hk : k' = key
      · subst hk
        simp [setField, lookupField, h, Ne.symm h]
      · simp [setField, lookupField, hk]
        by_cases hk2 : k' = k
        · simp [hk2, lookupField]
        · simp [hk2, lookupField, ih]

/-- Setting a key makes lookup of that key return the new value. -/
theorem lookup_set_self (e : Event) (key : String) (v : JVal) :
    lookupField (setField e key v) key = some v := by
  induction e with
  | nil => simp [setField, lookupField]
  | cons hd tl ih =>
      obtain ⟨k', w⟩ := hd
      by_cases hk : k' = key
      · subst hk
        simp [setField, lookupField]
      · simp [setField, lookupField, hk, ih]

/-- Trivial processor environment used for concrete evaluations: the injected
publisher always succeeds and no WebSocket client is registered. -/
def env0 : ProcEnv where
  publish := fun _ _ => none
  registry := none
  sendResult := none
  randIntn := fun _ => 0

/-! ## C1 -/

/-- C1 counterexample: the delivery whose body is the valid but empty JSON
object (so `order_status` is missing) is positively acknowledged — its whole
effect trace is one `Ack` and contains no negative acknowledgment — refuting
the claim that such a delivery is nacked with requeue and never acked. -/
theorem processMessage_missing_status_acked_cex :
    ProcessMessage env0 ⟨Body.objectOf []⟩ = (.ret none, [.ack]) := rfl

/-- C1 amended: a delivery whose body fails to decode as a JSON object is
nacked with requeue, the error is returned, and it is never positively
acknowledged; but a delivery that decodes to an object missing `order_status`
skips the status dispatch entirely and is positively acknowledged. -/
theorem processMessage_decode_failure_nacked (env : ProcEnv) :
    ProcessMessage env ⟨Body.invalid⟩ =
      (.ret (some (.strErr "json unmarshal error")), [.nackRequeue]) ∧
    ∀ e, lookupField e "order_status" = none →
      ProcessMessage env ⟨Body.objectOf e⟩ = (.ret none, [.ack]) := by
  constructor
  · rfl
  · intro e h
    simp [ProcessMessage, decodeBody, h]

/-- C1 witness: the amended theorem evaluated at the trivial environment and
the singleton object without `order_status`. -/
theorem processMessage_decode_failure_nacked_w :
    ProcessMessage env0 ⟨Body.objectOf [("order_no", JVal.num 42)]⟩ =
      (.ret none, [.ack]) :=
  (processMessage_decode_failure_nacked env0).2
    [("order_no", JVal.num 42)] rfl

/-! ## C2 -/

/-- C2: in every environment, processing a delivery whose `order_status` is
PREPARING panics with `"Invalid range of time"` before sleeping, mutating, or
publishing anything: `GenerateRandomDuration` declares its parameters in the
order `(max, min)` while `handleOrderPreparing` passes `(1, 6)`, so the
guard `min > max` fires on the only in-range input the program uses. -/
theorem processMessage_preparing_panics (env : ProcEnv) :
    ProcessMessage env
        ⟨Body.objectOf [("order_status", JVal.str ORDER_PREPARING)]⟩ =
      (.panicked "Invalid range of time", []) := rfl

/-! ## C3 -/

/-- Discriminator: did `PublishEvent` return normally to its caller (with or
without an error value), as opposed to panicking? -/
def PubRes.isReturn : PubRes → Bool
  | .ret _ => true
  | .panicked _ => false

/-- Publish environment in which the body marshals fine but the connection
manager supplies a nil channel. -/
def envNilChan : PublishEnv where
  marshal := .ok "payload"
  defaultQueue := "dq"
  channel := .nil
  publishErr := none

/-- C3 counterexample: with a nil channel from the connection manager,
`PublishEvent` does not return an error to the caller — it does not return at
all: it panics with `"RabbitMQ channel is unavailable"`, and on a consumer
worker goroutine (which installs no recover) that panic kills the process. -/
theorem publishEvent_nil_channel_cex :
    (PublishEvent envNilChan "q").1.isReturn = false ∧
    PublishEvent envNilChan "q" =
      (.panicked "RabbitMQ channel is unavailable", [.getChannel]) := by
  constructor <;> rfl

/-- C3 amended: when the body marshals but the Connection Manager cannot
supply a usable channel (nil, or a channel reporting closed), `PublishEvent`
panics with `"RabbitMQ channel is unavailable"` instead of returning an
error; nothing is published. Per-message errors that `PublishEvent` does
return are contained by the dispatch loop, but this condition is a panic, not
a returned error. -/
theorem publishEvent_unusable_channel_panics (env : PublishEnv) (q data : String)
    (hm : env.marshal = .ok data)
    (hc : env.channel = .nil ∨ env.channel = .ch true) :
    PublishEvent env q =
      (.panicked "RabbitMQ channel is unavailable", [.getChannel]) := by
  rcases hc with hc | hc <;> simp [PublishEvent, hm, hc]

/-- C3 witness: the amended theorem evaluated at the nil-channel
environment. -/
theorem publishEvent_unusable_channel_panics_w :
    PublishEvent envNilChan "q" =
      (.panicked "RabbitMQ channel is unavailable", [.getChannel]) :=
  publishEvent_unusable_channel_panics envNilChan "q" "payload" rfl (Or.inl rfl)

/-! ## C4 -/

/-- Number of queue-declare operations in a consumer effect trace. -/
def countDeclare : List ConsEffect → Nat
  | [] => 0
  | .queueDeclare _ _ _ _ _ :: rest => countDeclare rest + 1
  | _ :: rest => countDeclare rest

/-- Number of subscribe (`Consume`) operations in a consumer effect trace. -/
def countConsume : List ConsEffect → Nat
  | [] => 0
  | .consume _ _ :: rest => countConsume rest + 1
  | _ :: rest => countConsume rest

/-- Worker spawns contribute no queue-declare operations. -/
theorem countDeclare_spawn (ds : List Delivery) :
    countDeclare (ds.map ConsEffect.spawnWorker) = 0 := by
  induction ds with
  | nil => rfl
  | cons d tl ih => simpa [countDeclare] using ih

/-- Worker spawns contribute no subscribe operations. -/
theorem countConsume_spawn (ds : List Delivery) :
    countConsume (ds.map ConsEffect.spawnWorker) = 0 := by
  induction ds with
  | nil => rfl
  | cons d tl ih => simpa [countConsume] using ih

/-- Consumer environment with a healthy channel, a successful subscription,
and an immediately closing (empty) delivery stream. -/
def envConsEmpty : ConsumeEnv where
  channel := some ()
  consumeErr := none
  deliveries := []

/-- C4 counterexample: a successful `ConsumeEventAndProcess` call's complete
effect trace is channel acquisition followed directly by the subscription —
it contains no queue declaration at all, refuting the claim that every
invocation declares the queue before subscribing. -/
theorem consume_no_declare_cex :
    ConsumeEventAndProcess envConsEmpty "q" =
      (.blocked, [.getChannel, .consume "q" false]) ∧
    countDeclare (ConsumeEventAndProcess envConsEmpty "q").2 = 0 := by
  constructor <;> rfl

/-- C4 amended: `ConsumeEventAndProcess` never declares the queue itself — in
every environment its effect trace contains zero queue declarations — and
subscribes directly; idempotent durable declaration is provided only by the
separate `DeclareQueue` operation, which (given a channel) declares the named
queue durable, not auto-deleted, not exclusive. -/
theorem consume_declares_nothing (env : ConsumeEnv) (q : String) :
    countDeclare (ConsumeEventAndProcess env q).2 = 0 ∧
    ∀ derr, (ConsumerDeclareQueue (some ()) derr q).2 =
      [.getChannel, .queueDeclare q true false false false] := by
  constructor
  · unfold ConsumeEventAndProcess
    cases env.channel with
    | none => rfl
    | some u =>
        cases env.consumeErr with
        | none => simpa [countDeclare] using countDeclare_spawn env.deliveries
        | some e => rfl
  · intro derr
    rfl

/-! ## C5 -/

/-- C5: after a successful subscription the consumer call subscribes exactly
once, dispatches exactly one fresh worker per delivery in stream order, and
performs nothing further once the delivery stream closes — the closed stream
ends the dispatch and no re-subscription happens — while the call itself then
blocks forever rather than returning. -/
theorem consume_stream_close_terminal (env : ConsumeEnv) (q : String)
    (hch : env.channel = some ()) (hok : env.consumeErr = none) :
    (ConsumeEventAndProcess env q).1 = .blocked ∧
    (ConsumeEventAndProcess env q).2 =
      .getChannel :: .consume q false ::
        env.deliveries.map ConsEffect.spawnWorker ∧
    countConsume (ConsumeEventAndProcess env q).2 = 1 := by
  refine ⟨?_, ?_, ?_⟩ <;>
    simp [ConsumeEventAndProcess, hch, hok, countConsume, countConsume_spawn]

/-- C5 witness: a two-delivery stream is dispatched as exactly two workers
after the single subscription, and nothing follows the stream's close. -/
theorem consume_stream_close_terminal_w :
    (ConsumeEventAndProcess
        ⟨some (), none, [⟨Body.objectOf []⟩, ⟨Body.invalid⟩]⟩ "q").2 =
      [.getChannel, .consume "q" false,
        .spawnWorker ⟨Body.objectOf []⟩, .spawnWorker ⟨Body.invalid⟩] :=
  (consume_stream_close_terminal
    ⟨some (), none, [⟨Body.objectOf []⟩, ⟨Body.invalid⟩]⟩ "q" rfl rfl).2.1

/-! ## C6 -/

/-- C6: each stage handler's only mutation of the event is the overwrite of
`order_status` (to PREPARING, PREPARED, DELIVERED respectively) — whenever a
handler returns an event it is exactly `setField event "order_status" next`,
the PREPARED-stage broadcast (when a client is connected) wraps that mutated
event unchanged in the completion notification, and overwriting
`order_status` leaves the value of every other key untouched. -/
theorem handlers_modify_only_status (env : ProcEnv) (event : Event)
    (k : String) (hk : k ≠ "order_status") :
    (∃ err, (handleOrderOrdered env event).1 =
      .ret err (setField event "order_status" (.str ORDER_PREPARING))) ∧
    (∀ err e', (handleOrderPreparing env event).1 = .ret err e' →
      e' = setField event "order_status" (.str ORDER_PREPARED)) ∧
    (∃ err, (handleOrderPrepared env event).1 =
      .ret err (setField event "order_status" (.str ORDER_DELIVERED))) ∧
    ((handleOrderPrepared env event).2 = [] ∨
      (handleOrderPrepared env event).2 =
        [.wsSend (.obj [("message", .str ORDER_PREPARED_SUCCESSFULLY),
          ("order", .obj (setField event "order_status"
            (.str ORDER_DELIVERED)))])]) ∧
    (∀ v, lookupField (setField event "order_status" v) k =
      lookupField event k) ∧
    (∀ v, lookupField (setField event "order_status" v) "order_status" =
      some v) := by
  refine ⟨?_, ?_, ?_, ?_, ?_, ?_⟩
  · cases h : env.publish KITCHEN_ORDER_QUEUE
        (setField event "order_status" (.str ORDER_PREPARING)) with
    | none => exact ⟨none, by simp [handleOrderOrdered, h]⟩
    | some e => exact ⟨some e, by simp [handleOrderOrdered, h]⟩
  · intro err e' h
    simp [handleOrderPreparing, GenerateRandomDuration,
      show (1 : Int) < 6 by norm_num] at h
  · exact ⟨(broadcastToWebSocket env
        (.obj [("message", .str ORDER_PREPARED_SUCCESSFULLY),
          ("order", .obj (setField event "order_status"
            (.str ORDER_DELIVERED)))])).1,
      by simp [handleOrderPrepared]⟩
  · cases hr : env.registry with
    | none => left; simp [handleOrderPrepared, broadcastToWebSocket, hr]
    | some conns =>
        cases hl : conns.lookup "pizza" with
        | none =>
            left; simp [handleOrderPrepared, broadcastToWebSocket, hr, hl]
        | some c =>
            right; simp [handleOrderPrepared, broadcastToWebSocket, hr, hl]
  · intro v
    exact lookup_set_ne event "order_status" k v hk
  · intro v
    exact lookup_set_self event "order_status" v

/-- C6 witness: overwriting `order_status` on a concrete order leaves its
`order_no` field with its original value. -/
theorem handlers_modify_only_status_w :
    lookupField
        (setField [("order_no", JVal.num 42)] "order_status"
          (.str ORDER_PREPARING)) "order_no" = some (JVal.num 42) :=
  ((handlers_modify_only_status env0 [("order_no", JVal.num 42)] "order_no"
    (by decide)).2.2.2.2.1 (.str ORDER_PREPARING)).trans rfl

/-! ## C7 -/

/-- C7: when marshalling the body fails, `PublishEvent` returns the wrapped
marshal error and performs no effect at all — no channel acquisition and no
publish reach the broker — and a marshal error is never equal to a transport
(broker) error. -/
theorem publishEvent_marshal_failure_isolated (env : PublishEnv)
    (q cause : String) (hm : env.marshal = .err cause) :
    PublishEvent env q = (.ret (some (.marshalErr cause)), []) ∧
    ∀ s, GoErr.marshalErr cause ≠ GoErr.amqpErr s := by
  constructor
  · simp [PublishEvent, hm]
  · intro s h
    exact GoErr.noConfusion h

/-- Publish environment whose body fails to marshal. -/
def envMarshalFail : PublishEnv where
  marshal := .err "unsupported type"
  defaultQueue := "dq"
  channel := .ch false
  publishErr := none

/-- C7 witness: the theorem evaluated at a concrete failing marshal. -/
theorem publishEvent_marshal_failure_isolated_w :
    PublishEvent envMarshalFail "q" =
      (.ret (some (.marshalErr "unsupported type")), []) :=
  (publishEvent_marshal_failure_isolated envMarshalFail "q"
    "unsupported type" rfl).1

/-! ## C8 -/

/-- C8: when the registry pointer is nil, or no connection is registered
under the client identity `"pizza"`, the broadcast returns nil (success) and
performs no write on any connection. -/
theorem broadcast_absent_client_noop (env : ProcEnv) (data : JVal)
    (h : env.registry = none ∨
      ∃ conns, env.registry = some conns ∧ conns.lookup "pizza" = none) :
    broadcastToWebSocket env data = (none, []) := by
  rcases h with h | ⟨conns, h1, h2⟩
  · simp [broadcastToWebSocket, h]
  · simp [broadcastToWebSocket, h1, h2]

/-- Processor environment whose registry holds only a different client. -/
def envOtherClient : ProcEnv where
  publish := fun _ _ => none
  registry := some [("someone-else", 3)]
  sendResult := some (.strErr "should never be consulted")
  randIntn := fun _ => 0

/-- C8 witness: the theorem evaluated at a registry holding only an unrelated
client identity. -/
theorem broadcast_absent_client_noop_w :
    broadcastToWebSocket envOtherClient (JVal.str "ready") = (none, []) :=
  broadcast_absent_client_noop envOtherClient (JVal.str "ready")
    (Or.inr ⟨[("someone-else", 3)], rfl, rfl⟩)

/-! ## C9 -/

/-- C9: against a live transport connection `GetChannel` never panics, makes
at most two `Channel()` attempts, returns the first attempt's channel when it
succeeds, retries exactly once on a first failure and returns the second
attempt's channel when that succeeds, and returns nil as a hard failure —
after exactly two attempts, never more — when both attempts fail. -/
theorem getChannel_single_retry (env : ChanEnv) (hlive : env.connLive = true) :
    GetChannel env = .ok (getChannelAttempts env.attempt) ∧
    (getChannelAttempts env.attempt).2 ≤ 2 ∧
    (∀ c, env.attempt 0 = .ok c →
      getChannelAttempts env.attempt = (some c, 1)) ∧
    (∀ e c, env.attempt 0 = .fail e → env.attempt 1 = .ok c →
      getChannelAttempts env.attempt = (some c, 2)) ∧
    (∀ e₁ e₂, env.attempt 0 = .fail e₁ → env.attempt 1 = .fail e₂ →
      getChannelAttempts env.attempt = (none, 2)) := by
  refine ⟨by simp [GetChannel, hlive], ?_, ?_, ?_, ?_⟩
  · unfold getChannelAttempts
    cases env.attempt 0 with
    | ok c => simp
    | fail e => cases env.attempt 1 <;> simp
  · intro c h
    simp [getChannelAttempts, h]
  · intro e c h0 h1
    simp [getChannelAttempts, h0, h1]
  · intro e₁ e₂ h0 h1
    simp [getChannelAttempts, h0, h1]

/-- Channel environment: live connection, transient failure on the first
`Channel()` attempt, success on the second. -/
def envRetryOnce : ChanEnv where
  connLive := true
  connect := .ok
  attempt := fun n => if n = 0 then .fail "transient" else .ok 7

/-- C9 witness: with a live connection, a failing first attempt and a
succeeding second one, `GetChannel` returns the second attempt's channel
after exactly two attempts. -/
theorem getChannel_single_retry_w :
    GetChannel envRetryOnce = .ok (some 7, 2) :=
  (getChannel_single_retry envRetryOnce rfl).1.trans
    (congrArg Except.ok
      ((getChannel_single_retry envRetryOnce rfl).2.2.2.1 "transient" 7
        rfl rfl))

/-! ## C10 -/

/-- Number of channel-close operations in a publish effect trace. -/
def countClose : List PubEffect → Nat
  | [] => 0
  | .closeChannel :: rest => countClose rest + 1
  | _ :: rest => countClose rest

/-- C10: with a usable channel, when the broker publish fails `PublishEvent`
returns that error and its trace contains no channel close — the one-shot
channel is left open — while on broker success the channel is closed after
the publish. -/
theorem publishEvent_close_only_on_success (env : PublishEnv)
    (q data : String) (hm : env.marshal = .ok data)
    (hch : env.channel = .ch false) :
    (∀ e, env.publishErr = some e →
      PublishEvent env q = (.ret (some (.amqpErr e)),
        [.getChannel,
          .publishWire (if q = "" then env.defaultQueue else q) data true]) ∧
      countClose (PublishEvent env q).2 = 0) ∧
    (env.publishErr = none →
      PublishEvent env q = (.ret none,
        [.getChannel,
          .publishWire (if q = "" then env.defaultQueue else q) data true,
          .closeChannel])) := by
  constructor
  · intro e he
    constructor
    · simp [PublishEvent, hm, hch, he]
    · simp [PublishEvent, hm, hch, he, countClose]
  · intro he
    simp [PublishEvent, hm, hch, he]

/-- Publish environment whose broker publish fails. -/
def envPubFail : PublishEnv where
  marshal := .ok "payload"
  defaultQueue := "dq"
  channel := .ch false
  publishErr := some "broker unreachable"

/-- C10 witness: a concrete failing broker publish returns the transport
error with zero channel closes in the trace. -/
theorem publishEvent_close_only_on_success_w :
    countClose (PublishEvent envPubFail "orders").2 = 0 :=
  ((publishEvent_close_only_on_success envPubFail "orders" "payload" rfl
    rfl).1 "broker unreachable" rfl).2

end PizzaShop
